import Mathlib

/-!
Shallow embedding of the botbunker reporting API (src/app.py) and proofs of
its specified aggregation and access-control properties.

The program is a read-only reporting service over four tables
(activated_servers, ticket_stats, feedback, license_keys).  We model the
store as explicit data, each endpoint as a pure function returning its
result together with the trace of store operations it performs, and the
aggregation formulas exactly as the Python source computes them
(non-negative integers as Nat, SQL floats/averages as ℚ).
-/

/-- Row of the ticket_stats table: (guild_id, date) keyed daily counters.
The guild_id is carried by the surrounding map, so a row holds the
remaining columns selected by the code. -/
structure TicketRow where
  date : Int
  tickets_opened : Nat
  tickets_closed : Nat
  avg_resolution_time : ℚ
deriving DecidableEq, Repr

/-- Row of the activated_servers table, columns used by the endpoints. -/
structure GuildRow where
  guild_id : String
  server_name : String
  owner_id : String
  owner_name : String
  activated_at : Int
  active : Bool
  key_id : Nat
deriving DecidableEq, Repr

/-- Row of the license_keys table. -/
structure LicenseRow where
  key_id : Nat
  key_value : String
  created_at : Int
  created_by : String
  used : Bool
  used_by : Option String
  used_at : Option Int
  expires_at : Option Int
deriving DecidableEq, Repr

/-- The relational store the endpoints read from.  ticket_stats and feedback
are keyed by guild_id (the WHERE clause of every query that touches them);
feedback rows are reduced to their rating column, the only one the code
reads. -/
structure Store where
  activated_servers : List GuildRow
  ticket_stats : String → List TicketRow
  feedback : String → List Int
  license_keys : List LicenseRow

/-- Store operations an endpoint can perform, in order: opening the
database connection and each SQL query of app.py. -/
inductive Query where
  | connect
  | guildLookup (gid : String)
  | ticketStatsQ (gid : String)
  | feedbackOverallQ (gid : String)
  | feedbackDistributionQ (gid : String)
  | licensesQ
  | serversQ
  | ticketSumQ (gid : String)
deriving DecidableEq, Repr

/-- Rows of the window with tickets_closed > 0: the generator filter
`if stat["tickets_closed"] > 0` shared by the numerator, the denominator
and the guard of the avg_resolution_time expression (app.py lines 112-115). -/
def closedRows (rows : List TicketRow) : List TicketRow :=
  rows.filter (fun s => 0 < s.tickets_closed)

/-- Numerator of the weighted average:
sum(stat["avg_resolution_time"] * stat["tickets_closed"] for ... if closed > 0). -/
def resolutionNum (rows : List TicketRow) : ℚ :=
  ((closedRows rows).map (fun s => s.avg_resolution_time * (s.tickets_closed : ℚ))).sum

/-- Denominator of the weighted average:
sum(stat["tickets_closed"] for ... if closed > 0). -/
def resolutionDen (rows : List TicketRow) : Nat :=
  ((closedRows rows).map (fun s => s.tickets_closed)).sum

/-- The "total" object of the guild report (app.py lines 109-116). -/
structure TicketSummary where
  opened : Nat
  closed : Nat
  avg_resolution_time : ℚ
deriving DecidableEq, Repr

/-- Aggregation of a ticket window exactly as app.py lines 109-116 compute
it: plain column sums for opened/closed, and the closed-weighted average
guarded by `if <filtered closed sum> > 0 else 0`. -/
def ticketSummary (rows : List TicketRow) : TicketSummary :=
  { opened := (rows.map (fun s => s.tickets_opened)).sum
    closed := (rows.map (fun s => s.tickets_closed)).sum
    avg_resolution_time :=
      if 0 < resolutionDen rows then resolutionNum rows / (resolutionDen rows : ℚ)
      else 0 }

/-- SQL SUM aggregate over a column: NULL (none) on an empty row set,
otherwise the sum. -/
def sqlSum (l : List Nat) : Option Nat :=
  match l with
  | [] => none
  | _ => some l.sum

/-- SELECT rating, COUNT(*) ... GROUP BY rating ORDER BY rating: one pair
per distinct rating present, ascending, with its multiplicity. -/
def distributionOf (rows : List Int) : List (Int × Nat) :=
  (rows.dedup.insertionSort (fun a b => a ≤ b)).map (fun r => (r, rows.count r))

/-- SELECT COUNT(*), AVG(rating): AVG is NULL on an empty row set. -/
def feedbackOverall (rows : List Int) : Nat × Option ℚ :=
  (rows.length,
   if rows.length = 0 then none
   else some ((rows.map (fun r => (r : ℚ))).sum / (rows.length : ℚ)))

/-- The 30 most recent ticket rows of a guild: ORDER BY date DESC LIMIT 30
(app.py lines 76-82). -/
def ticketWindow (store : Store) (gid : String) : List TicketRow :=
  ((store.ticket_stats gid).insertionSort (fun r s => s.date ≤ r.date)).take 30

/-- Body of the JSON object returned by GET /stats/guild/<id> on success. -/
structure GuildReport where
  guild_id : String
  name : String
  owner : String
  daily : List TicketRow
  total : TicketSummary
  feedback_total : Nat
  avg_rating : Option ℚ
  feedback_distribution : List (Int × Nat)

/-- Outcome of the guild_stats handler: 404 or the report. -/
inductive GuildStatsResult where
  | notFound
  | ok (r : GuildReport)

/-- The guild_stats handler (app.py lines 57-122): open a connection, look
the guild up in activated_servers; on a missing row return 404 having
issued no further query, otherwise run the three remaining queries and
assemble the report. -/
def guild_stats (store : Store) (gid : String) : GuildStatsResult × List Query :=
  match store.activated_servers.find? (fun a => a.guild_id == gid) with
  | none => (GuildStatsResult.notFound, [Query.connect, Query.guildLookup gid])
  | some a =>
      let window := ticketWindow store gid
      let fb := store.feedback gid
      (GuildStatsResult.ok
        { guild_id := gid
          name := a.server_name
          owner := a.owner_name
          daily := window
          total := ticketSummary window
          feedback_total := (feedbackOverall fb).1
          avg_rating := (feedbackOverall fb).2
          feedback_distribution := distributionOf fb },
       [Query.connect, Query.guildLookup gid, Query.ticketStatsQ gid,
        Query.feedbackOverallQ gid, Query.feedbackDistributionQ gid])

/-- The list_licenses handler (app.py lines 129-147): all license rows,
ORDER BY created_at DESC. -/
def list_licenses (store : Store) : List LicenseRow × List Query :=
  (store.license_keys.insertionSort (fun k l => l.created_at ≤ k.created_at),
   [Query.connect, Query.licensesQ])

/-- One element of the servers listing, the dict built per row in app.py
lines 166-187. -/
structure ServerEntry where
  guild_id : String
  server_name : String
  owner_id : String
  owner_name : String
  activated_at : Int
  active : Bool
  license_key : String
  tickets_opened : Nat
  tickets_closed : Nat
deriving DecidableEq, Repr

/-- Inner join of activated_servers with license_keys ON key_id (app.py
lines 156-162): a guild row pairs with every matching license row and a
guild row with no match yields nothing. -/
def joinedRows (store : Store) : List (GuildRow × LicenseRow) :=
  store.activated_servers.flatMap (fun a =>
    (store.license_keys.filter (fun l => l.key_id == a.key_id)).map (fun l => (a, l)))

/-- Per-guild enrichment of a joined row (app.py lines 166-186): the
all-time SUM aggregates over ticket_stats, NULL coalesced to 0 by
`stats[0] or 0` / `stats[1] or 0`. -/
def mkServerEntry (store : Store) (a : GuildRow) (l : LicenseRow) : ServerEntry :=
  let stats := store.ticket_stats a.guild_id
  { guild_id := a.guild_id
    server_name := a.server_name
    owner_id := a.owner_id
    owner_name := a.owner_name
    activated_at := a.activated_at
    active := a.active
    license_key := l.key_value
    tickets_opened := (sqlSum (stats.map (fun s => s.tickets_opened))).getD 0
    tickets_closed := (sqlSum (stats.map (fun s => s.tickets_closed))).getD 0 }

/-- Joined rows in response order: ORDER BY a.activated_at DESC. -/
def sortedJoined (store : Store) : List (GuildRow × LicenseRow) :=
  (joinedRows store).insertionSort (fun p q => q.1.activated_at ≤ p.1.activated_at)

/-- The list_servers handler (app.py lines 151-191): the join ordered by
activated_at DESC, then one ticket-sum aggregate query per row. -/
def list_servers (store : Store) : List ServerEntry × List Query :=
  ((sortedJoined store).map (fun p => mkServerEntry store p.1 p.2),
   Query.connect :: Query.serversQ ::
     (sortedJoined store).map (fun p => Query.ticketSumQ p.1.guild_id))

/-- Result of a gated endpoint call. -/
inductive ApiResult (α : Type) where
  | unauthorized
  | ok (value : α)

/-- The require_api_key decorator (app.py lines 16-22): compare the
X-API-Key header with the API_KEY environment value (either may be
absent) and reject with 401 before the handler body runs; the handler,
hence every store operation, runs only on equality. -/
def gated {α : Type} (configured header : Option String)
    (f : Unit → α × List Query) : ApiResult α × List Query :=
  if header != configured then (ApiResult.unauthorized, [])
  else (ApiResult.ok (f ()).1, (f ()).2)

/-! ### Helper lemmas -/

lemma mem_closedRows_iff {rows : List TicketRow} {s : TicketRow} :
    s ∈ closedRows rows ↔ s ∈ rows ∧ 0 < s.tickets_closed := by
  simp [closedRows]

lemma resolutionDen_pos (rows : List TicketRow)
    (h : ∃ r ∈ rows, 0 < r.tickets_closed) : 0 < resolutionDen rows := by
  obtain ⟨r, hr, hpos⟩ := h
  have hrm : r ∈ closedRows rows := mem_closedRows_iff.2 ⟨hr, hpos⟩
  apply List.sum_pos
  · intro x hx
    rcases List.mem_map.1 hx with ⟨s, hs, rfl⟩
    exact (mem_closedRows_iff.1 hs).2
  · exact List.ne_nil_of_mem (List.mem_map_of_mem _ hrm)

lemma cast_sum_closed (L : List TicketRow) :
    (((L.map (fun s => s.tickets_closed)).sum : Nat) : ℚ) =
      (L.map (fun s => (s.tickets_closed : ℚ))).sum := by
  induction L with
  | nil => simp
  | cons a t ih => simp [ih]

lemma mul_sum_le_weighted (L : List TicketRow) (m : ℚ)
    (hb : ∀ s ∈ L, m ≤ s.avg_resolution_time) :
    m * (L.map (fun s => (s.tickets_closed : ℚ))).sum ≤
      (L.map (fun s => s.avg_resolution_time * (s.tickets_closed : ℚ))).sum := by
  induction L with
  | nil => simp
  | cons a t ih =>
    simp only [List.map_cons, List.sum_cons, mul_add]
    refine add_le_add ?_ (ih (fun s hs => hb s (List.mem_cons_of_mem a hs)))
    exact mul_le_mul_of_nonneg_right (hb a (List.mem_cons_self a t)) (Nat.cast_nonneg _)

lemma weighted_le_mul_sum (L : List TicketRow) (M : ℚ)
    (hb : ∀ s ∈ L, s.avg_resolution_time ≤ M) :
    (L.map (fun s => s.avg_resolution_time * (s.tickets_closed : ℚ))).sum ≤
      M * (L.map (fun s => (s.tickets_closed : ℚ))).sum := by
  induction L with
  | nil => simp
  | cons a t ih =>
    simp only [List.map_cons, List.sum_cons, mul_add]
    refine add_le_add ?_ (ih (fun s hs => hb s (List.mem_cons_of_mem a hs)))
    exact mul_le_mul_of_nonneg_right (hb a (List.mem_cons_self a t)) (Nat.cast_nonneg _)

lemma rat_min?_spec {l : List ℚ} {m : ℚ} (h : l.min? = some m) :
    m ∈ l ∧ ∀ b ∈ l, m ≤ b := by
  haveI : Std.Antisymm (fun a b : ℚ => a ≤ b) := ⟨fun h1 h2 => le_antisymm h1 h2⟩
  exact (List.min?_eq_some_iff (fun a => le_refl a) (fun a b => min_choice a b)
    (fun a b c => le_min_iff)).1 h

lemma rat_max?_spec {l : List ℚ} {M : ℚ} (h : l.max? = some M) :
    M ∈ l ∧ ∀ b ∈ l, b ≤ M := by
  haveI : Std.Antisymm (fun a b : ℚ => a ≤ b) := ⟨fun h1 h2 => le_antisymm h1 h2⟩
  exact (List.max?_eq_some_iff (fun a => le_refl a) (fun a b => max_choice a b)
    (fun a b c => max_le_iff)).1 h

/-! ### Concrete data for witnesses -/

/-- The spec example window: two days, only the first with closed tickets. -/
def exampleWindow : List TicketRow :=
  [{ date := 0, tickets_opened := 10, tickets_closed := 8, avg_resolution_time := 5 },
   { date := 1, tickets_opened := 5, tickets_closed := 0, avg_resolution_time := 0 }]

/-- Window with a single day and no closed tickets. -/
def zeroClosedWindow : List TicketRow :=
  [{ date := 0, tickets_opened := 3, tickets_closed := 0, avg_resolution_time := 2 }]

/-- Window with two closed-bearing days (averages 3 and 5) and one day
without closures. -/
def mixedWindow : List TicketRow :=
  [{ date := 0, tickets_opened := 1, tickets_closed := 2, avg_resolution_time := 3 },
   { date := 1, tickets_opened := 1, tickets_closed := 0, avg_resolution_time := 9 },
   { date := 2, tickets_opened := 1, tickets_closed := 4, avg_resolution_time := 5 }]

/-! ### Claim theorems -/

/-- C1: for every window of DailyTicketStat rows in which at least one row
has tickets_closed > 0, the avg_resolution_time of the report's ticket
total equals Σ avg_resolution_time[i] * tickets_closed[i] over the rows
with tickets_closed[i] > 0 divided by Σ tickets_closed[i] over those same
rows. -/
theorem guild_total_avg_is_weighted_mean (rows : List TicketRow)
    (h : ∃ r ∈ rows, 0 < r.tickets_closed) :
    (ticketSummary rows).avg_resolution_time =
      ((rows.filter (fun s => 0 < s.tickets_closed)).map
          (fun s => s.avg_resolution_time * (s.tickets_closed : ℚ))).sum /
        ((rows.filter (fun s => 0 < s.tickets_closed)).map
          (fun s => (s.tickets_closed : ℚ))).sum := by
  have hd : 0 < resolutionDen rows := resolutionDen_pos rows h
  simp only [ticketSummary, if_pos hd]
  rw [show (rows.filter (fun s => 0 < s.tickets_closed)) = closedRows rows from rfl,
    ← cast_sum_closed]
  rfl

/-- Witness for C1 at the spec's own example window. -/
theorem guild_total_avg_is_weighted_mean_wit :
    (∃ r ∈ exampleWindow, 0 < r.tickets_closed) ∧
    (ticketSummary exampleWindow).avg_resolution_time =
      ((exampleWindow.filter (fun s => 0 < s.tickets_closed)).map
          (fun s => s.avg_resolution_time * (s.tickets_closed : ℚ))).sum /
        ((exampleWindow.filter (fun s => 0 < s.tickets_closed)).map
          (fun s => (s.tickets_closed : ℚ))).sum :=
  ⟨by decide, guild_total_avg_is_weighted_mean exampleWindow (by decide)⟩

/-- C2: for every window in which every row has tickets_closed = 0
(including the empty window), the report's avg_resolution_time is 0 and
the guard of the division (filtered closed sum > 0) is false, so the
division branch is never evaluated. -/
theorem avg_resolution_zero_when_no_closures (rows : List TicketRow)
    (h : ∀ r ∈ rows, r.tickets_closed = 0) :
    (ticketSummary rows).avg_resolution_time = 0 ∧ ¬ 0 < resolutionDen rows := by
  have hnil : closedRows rows = [] := by
    apply List.filter_eq_nil_iff.2
    intro r hr
    simp [h r hr]
  have hden : resolutionDen rows = 0 := by simp [resolutionDen, hnil]
  exact ⟨by simp [ticketSummary, hden], by simp [hden]⟩

/-- Witness for C2 at a one-row window with no closures. -/
theorem avg_resolution_zero_when_no_closures_wit :
    (∀ r ∈ zeroClosedWindow, r.tickets_closed = 0) ∧
    ((ticketSummary zeroClosedWindow).avg_resolution_time = 0 ∧
      ¬ 0 < resolutionDen zeroClosedWindow) :=
  ⟨by decide, avg_resolution_zero_when_no_closures zeroClosedWindow (by decide)⟩

/-- Store with one activated guild, one matching license key, one ticket
day and three feedback rows. -/
def storeA : Store :=
  { activated_servers :=
      [{ guild_id := "g1", server_name := "Guild One", owner_id := "o1",
         owner_name := "Owner", activated_at := 100, active := true, key_id := 1 }],
    ticket_stats := fun _ =>
      [{ date := 0, tickets_opened := 2, tickets_closed := 1, avg_resolution_time := 3 }],
    feedback := fun _ => [5, 5, 3],
    license_keys :=
      [{ key_id := 1, key_value := "KV1", created_at := 10, created_by := "adm",
         used := true, used_by := some "o1", used_at := some 50, expires_at := none }] }

/-- The report guild_stats produces for "g1" against storeA. -/
def reportA : GuildReport :=
  { guild_id := "g1"
    name := "Guild One"
    owner := "Owner"
    daily := ticketWindow storeA "g1"
    total := ticketSummary (ticketWindow storeA "g1")
    feedback_total := (feedbackOverall (storeA.feedback "g1")).1
    avg_rating := (feedbackOverall (storeA.feedback "g1")).2
    feedback_distribution := distributionOf (storeA.feedback "g1") }

/-- C6: for every window (the report's daily series), the opened and
closed fields of the report's ticket total are the plain column sums over
the whole window — rows with zero closures still contribute their
tickets_opened — and the empty window sums to 0 for both. -/
theorem guild_report_totals_are_column_sums (store : Store) (gid : String)
    (r : GuildReport) (h : (guild_stats store gid).1 = GuildStatsResult.ok r) :
    r.total.opened = (r.daily.map (fun s => s.tickets_opened)).sum ∧
    r.total.closed = (r.daily.map (fun s => s.tickets_closed)).sum ∧
    (ticketSummary []).opened = 0 ∧ (ticketSummary []).closed = 0 := by
  cases hf : store.activated_servers.find? (fun a => a.guild_id == gid) with
  | none => simp [guild_stats, hf] at h
  | some a =>
    simp only [guild_stats, hf, GuildStatsResult.ok.injEq] at h
    subst h
    exact ⟨rfl, rfl, rfl, rfl⟩

/-- Witness for C6 against storeA. -/
theorem guild_report_totals_are_column_sums_wit :
    (guild_stats storeA "g1").1 = GuildStatsResult.ok reportA ∧
    (reportA.total.opened = (reportA.daily.map (fun s => s.tickets_opened)).sum ∧
     reportA.total.closed = (reportA.daily.map (fun s => s.tickets_closed)).sum ∧
     (ticketSummary []).opened = 0 ∧ (ticketSummary []).closed = 0) :=
  ⟨rfl, guild_report_totals_are_column_sums storeA "g1" reportA rfl⟩

/-- C7: for every window with at least one closed-bearing row, the
weighted average resolution time lies between the minimum and the maximum
avg_resolution_time among the rows with tickets_closed > 0. -/
theorem avg_resolution_between_min_and_max (rows : List TicketRow) (m M : ℚ)
    (hm : ((closedRows rows).map (fun s => s.avg_resolution_time)).min? = some m)
    (hM : ((closedRows rows).map (fun s => s.avg_resolution_time)).max? = some M) :
    m ≤ (ticketSummary rows).avg_resolution_time ∧
    (ticketSummary rows).avg_resolution_time ≤ M := by
  obtain ⟨hmem, hlow⟩ := rat_min?_spec hm
  obtain ⟨hMmem, hhigh⟩ := rat_max?_spec hM
  rcases List.mem_map.1 hmem with ⟨s0, hs0, hs0e⟩
  have hd : 0 < resolutionDen rows :=
    resolutionDen_pos rows
      ⟨s0, (mem_closedRows_iff.1 hs0).1, (mem_closedRows_iff.1 hs0).2⟩
  have hdc : (0 : ℚ) < (resolutionDen rows : ℚ) := by exact_mod_cast hd
  have hcast : ((resolutionDen rows : Nat) : ℚ) =
      ((closedRows rows).map (fun s => (s.tickets_closed : ℚ))).sum :=
    cast_sum_closed (closedRows rows)
  simp only [ticketSummary, if_pos hd]
  constructor
  · refine (le_div_iff₀ hdc).2 ?_
    rw [hcast]
    exact mul_sum_le_weighted (closedRows rows) m
      (fun s hs => hlow _ (List.mem_map_of_mem _ hs))
  · refine (div_le_iff₀ hdc).2 ?_
    rw [hcast]
    exact weighted_le_mul_sum (closedRows rows) M
      (fun s hs => hhigh _ (List.mem_map_of_mem _ hs))

/-- Witness for C7 at a window whose closed-bearing averages are 3 and 5. -/
theorem avg_resolution_between_min_and_max_wit :
    ((closedRows mixedWindow).map (fun s => s.avg_resolution_time)).min? = some 3 ∧
    ((closedRows mixedWindow).map (fun s => s.avg_resolution_time)).max? = some 5 ∧
    (3 ≤ (ticketSummary mixedWindow).avg_resolution_time ∧
      (ticketSummary mixedWindow).avg_resolution_time ≤ 5) :=
  ⟨by decide, by decide,
    avg_resolution_between_min_and_max mixedWindow 3 5 (by decide) (by decide)⟩

/-- Membership in the servers listing is exactly the inner join: an entry
is listed iff it is built from a guild row paired with a matching license
row. -/
lemma mem_list_servers {store : Store} {s : ServerEntry} :
    s ∈ (list_servers store).1 ↔
      ∃ a ∈ store.activated_servers, ∃ l ∈ store.license_keys,
        l.key_id = a.key_id ∧ s = mkServerEntry store a l := by
  simp only [list_servers]
  rw [List.mem_map]
  constructor
  · rintro ⟨p, hp, rfl⟩
    have hp2 : p ∈ joinedRows store :=
      (List.perm_insertionSort _ _).mem_iff.1 hp
    simp only [joinedRows] at hp2
    rcases List.mem_flatMap.1 hp2 with ⟨a, ha, hpa⟩
    rcases List.mem_map.1 hpa with ⟨l, hl, hpe⟩
    have hfl := List.mem_filter.1 hl
    refine ⟨a, ha, l, hfl.1, by simpa using hfl.2, ?_⟩
    rw [← hpe]
  · rintro ⟨a, ha, l, hl, hk, rfl⟩
    refine ⟨(a, l), ?_, rfl⟩
    apply (List.perm_insertionSort _ _).mem_iff.2
    simp only [joinedRows]
    exact List.mem_flatMap.2
      ⟨a, ha, List.mem_map.2 ⟨l, List.mem_filter.2 ⟨hl, by simpa using hk⟩, rfl⟩⟩

/-- C3: for every guild id whose lookup in activated_servers finds no row,
guild_stats answers NotFound and its store trace is exactly the connection
plus that single existence check — no ticket_stats and no feedback query. -/
theorem guild_stats_not_found_stops (store : Store) (gid : String)
    (h : store.activated_servers.find? (fun a => a.guild_id == gid) = none) :
    guild_stats store gid =
      (GuildStatsResult.notFound, [Query.connect, Query.guildLookup gid]) := by
  simp [guild_stats, h]

/-- Witness for C3 at an empty activated_servers table. -/
theorem guild_stats_not_found_stops_wit :
    ((Store.mk [] (fun _ => []) (fun _ => []) []).activated_servers.find?
        (fun a => a.guild_id == "nope") = none) ∧
    guild_stats (Store.mk [] (fun _ => []) (fun _ => []) []) "nope" =
      (GuildStatsResult.notFound, [Query.connect, Query.guildLookup "nope"]) :=
  ⟨rfl, guild_stats_not_found_stops (Store.mk [] (fun _ => []) (fun _ => []) []) "nope" rfl⟩

/-- C4: every guild in the servers listing carries numeric ticket fields;
when the guild has no DailyTicketStat rows (the SUM aggregate is NULL),
both tickets_opened and tickets_closed are 0 rather than missing. -/
theorem server_ticket_fields_default_zero (store : Store) (s : ServerEntry)
    (hs : s ∈ (list_servers store).1)
    (h0 : store.ticket_stats s.guild_id = []) :
    s.tickets_opened = 0 ∧ s.tickets_closed = 0 := by
  rcases mem_list_servers.1 hs with ⟨a, ha, l, hl, hk, rfl⟩
  have hg : (mkServerEntry store a l).guild_id = a.guild_id := rfl
  rw [hg] at h0
  simp [mkServerEntry, h0, sqlSum]

/-- Store whose only guild has a matching license key but no ticket rows. -/
def storeB : Store :=
  { activated_servers :=
      [{ guild_id := "g2", server_name := "Guild Two", owner_id := "o2",
         owner_name := "Own2", activated_at := 7, active := true, key_id := 4 }],
    ticket_stats := fun _ => [],
    feedback := fun _ => [],
    license_keys :=
      [{ key_id := 4, key_value := "KV4", created_at := 1, created_by := "adm",
         used := false, used_by := none, used_at := none, expires_at := none }] }

/-- The single entry list_servers produces against storeB. -/
def entryB : ServerEntry :=
  mkServerEntry storeB
    { guild_id := "g2", server_name := "Guild Two", owner_id := "o2",
      owner_name := "Own2", activated_at := 7, active := true, key_id := 4 }
    { key_id := 4, key_value := "KV4", created_at := 1, created_by := "adm",
      used := false, used_by := none, used_at := none, expires_at := none }

/-- Witness for C4: a listed guild without stat rows reports 0/0. -/
theorem server_ticket_fields_default_zero_wit :
    entryB ∈ (list_servers storeB).1 ∧ storeB.ticket_stats entryB.guild_id = [] ∧
    (entryB.tickets_opened = 0 ∧ entryB.tickets_closed = 0) :=
  ⟨by decide, rfl, server_ticket_fields_default_zero storeB entryB (by decide) rfl⟩

/-- C5: the rating distribution never contains a pair with count 0, and
its counts sum to the total of the overall feedback summary computed from
the same rows. -/
theorem feedback_distribution_counts (rows : List Int) (p : Int × Nat)
    (hp : p ∈ distributionOf rows) :
    0 < p.2 ∧
    ((distributionOf rows).map (fun q => q.2)).sum = (feedbackOverall rows).1 := by
  constructor
  · rcases List.mem_map.1 hp with ⟨r, hr, hpe⟩
    have hr2 : r ∈ rows.dedup := (List.perm_insertionSort _ _).mem_iff.1 hr
    have hmem : r ∈ rows := List.mem_dedup.1 hr2
    have hc := List.count_pos_iff.2 hmem
    rw [← hpe]
    simpa using hc
  · have hperm : List.Perm (rows.dedup.insertionSort (fun a b => a ≤ b)) rows.dedup :=
      List.perm_insertionSort _ _
    have h1 : ((distributionOf rows).map (fun q => q.2)) =
        (rows.dedup.insertionSort (fun a b => a ≤ b)).map (fun r => rows.count r) := by
      simp [distributionOf, List.map_map, Function.comp]
    rw [h1, (hperm.map (fun r => rows.count r)).sum_eq]
    simpa [feedbackOverall] using List.sum_map_count_dedup_eq_length rows

/-- Witness for C5 at the spec's feedback example [5, 5, 3]. -/
theorem feedback_distribution_counts_wit :
    ((3, 1) : Int × Nat) ∈ distributionOf [5, 5, 3] ∧
    (0 < ((3, 1) : Int × Nat).2 ∧
      ((distributionOf [5, 5, 3]).map (fun q => q.2)).sum =
        (feedbackOverall [5, 5, 3]).1) :=
  ⟨by decide, feedback_distribution_counts [5, 5, 3] (3, 1) (by decide)⟩

/-- C8: whenever the access-gate comparison fails, each of the three
reporting endpoints answers unauthorized with an empty store trace: no
connection is opened and no query runs. -/
theorem gate_rejects_before_any_store_access (cfg hdr : Option String)
    (store : Store) (gid : String) (h : hdr ≠ cfg) :
    gated cfg hdr (fun _ => guild_stats store gid) = (ApiResult.unauthorized, []) ∧
    gated cfg hdr (fun _ => list_licenses store) = (ApiResult.unauthorized, []) ∧
    gated cfg hdr (fun _ => list_servers store) = (ApiResult.unauthorized, []) := by
  have hb : (hdr != cfg) = true := bne_iff_ne.2 h
  refine ⟨?_, ?_, ?_⟩ <;> simp [gated, hb]

/-- Witness for C8: a request without the header against a configured key. -/
theorem gate_rejects_before_any_store_access_wit :
    (none : Option String) ≠ some "secret" ∧
    (gated (some "secret") none (fun _ => guild_stats storeA "g1") =
        (ApiResult.unauthorized, []) ∧
      gated (some "secret") none (fun _ => list_licenses storeA) =
        (ApiResult.unauthorized, []) ∧
      gated (some "secret") none (fun _ => list_servers storeA) =
        (ApiResult.unauthorized, [])) :=
  ⟨by decide,
    gate_rejects_before_any_store_access (some "secret") none storeA "g1" (by decide)⟩

/-- C9: with the API_KEY environment value unset and no X-API-Key header,
the comparison None != None is false, so the request is authorized and the
handler runs; in general the gate rejects exactly the requests whose
header differs from the configured value. -/
theorem gate_passes_when_key_unset_and_header_absent (store : Store) (gid : String) :
    gated none none (fun _ => guild_stats store gid) =
      (ApiResult.ok (guild_stats store gid).1, (guild_stats store gid).2) ∧
    ∀ cfg hdr : Option String,
      ((gated cfg hdr (fun _ => guild_stats store gid)).1 = ApiResult.unauthorized ↔
        hdr ≠ cfg) := by
  constructor
  · simp [gated]
  · intro cfg hdr
    by_cases hc : hdr = cfg
    · subst hc
      simp [gated]
    · have hb : (hdr != cfg) = true := bne_iff_ne.2 hc
      simp [gated, hb, hc]

/-- C10: with guild ids unique in activated_servers (the table's key), a
guild row whose key_id matches no license row is omitted from the servers
listing, and every listed entry is built from a guild row together with a
matching license row, so its license_key is that row's key_value. -/
theorem servers_listing_is_inner_join (store : Store)
    (hnodup : (store.activated_servers.map (fun a => a.guild_id)).Nodup) :
    (∀ a ∈ store.activated_servers,
        (∀ l ∈ store.license_keys, l.key_id ≠ a.key_id) →
        ∀ s ∈ (list_servers store).1, s.guild_id ≠ a.guild_id) ∧
    (∀ s ∈ (list_servers store).1,
        ∃ a ∈ store.activated_servers, ∃ l ∈ store.license_keys,
          l.key_id = a.key_id ∧ s.license_key = l.key_value ∧
          s = mkServerEntry store a l) := by
  constructor
  · intro a ha hnol s hs heq
    rcases mem_list_servers.1 hs with ⟨a2, ha2, l, hl, hk, hse⟩
    have hg : s.guild_id = a2.guild_id := by rw [hse]; rfl
    rw [hg] at heq
    have ha2a : a2 = a := List.inj_on_of_nodup_map hnodup ha2 ha heq
    rw [ha2a] at hk
    exact hnol l hl hk
  · intro s hs
    rcases mem_list_servers.1 hs with ⟨a, ha, l, hl, hk, hse⟩
    exact ⟨a, ha, l, hl, hk, by rw [hse]; rfl, hse⟩

/-- Guild row activated with license key 1. -/
def gRowA : GuildRow :=
  { guild_id := "ga", server_name := "Alpha", owner_id := "oa",
    owner_name := "OwnA", activated_at := 20, active := true, key_id := 1 }

/-- Guild row whose key_id 2 matches no license row. -/
def gRowB : GuildRow :=
  { guild_id := "gb", server_name := "Beta", owner_id := "ob",
    owner_name := "OwnB", activated_at := 30, active := true, key_id := 2 }

/-- The only license row of storeC, key_id 1. -/
def lRow1 : LicenseRow :=
  { key_id := 1, key_value := "KV1", created_at := 5, created_by := "adm",
    used := true, used_by := some "oa", used_at := some 6, expires_at := none }

/-- Store with two guilds of which only gRowA has a matching license. -/
def storeC : Store :=
  { activated_servers := [gRowA, gRowB],
    ticket_stats := fun _ => [],
    feedback := fun _ => [],
    license_keys := [lRow1] }

/-- The single entry list_servers produces against storeC. -/
def entryC : ServerEntry := mkServerEntry storeC gRowA lRow1

/-- Witness for C10: the orphan guild gb is absent from the listing. -/
theorem servers_listing_is_inner_join_wit :
    entryC.guild_id ≠ gRowB.guild_id :=
  (servers_listing_is_inner_join storeC (by decide)).1 gRowB (by decide)
    (by decide) entryC (by decide)
